import Mathlib

/-!
Shallow embedding of the rakopy / py-rako hub client
(`src/py-rako/rako_hub.py`, `src/py-rako/model.py`, `src/py_rako/errors.py`,
`src/rakopy/model.py`).

Modelling choices:
* A hub connection is a `Conn`; the Python attribute pair
  `self._reader / self._writer` is collapsed into
  `writer : Option (Option Bool)`:
  `none` models `self._writer is None`, `some none` models
  `self._writer.transport is None`, and `some (some b)` models a transport
  whose `is_closing()` returns `b`.
* Network I/O is explicit: the lines the hub will send are an input
  `List String`; reading a line consumes the head (an exhausted input reads
  as `""`, as a closed asyncio stream does).  Everything the client writes,
  and every TCP connection it opens, is recorded in an `Action` trace.
* Python string primitives are embedded as structurally recursive
  functions on the character list of a `String`, so that every concrete
  protocol line evaluates inside the kernel: `str.rstrip()` is
  `String.rstrip`, `str.strip()` is `String.strip`, `line.split(",")` is
  `String.splitComma`, membership `"," in s` is `s.data.contains ','`.
  The fallible positional indexing `data[i]` (which raises `IndexError` on
  a short row) is `List.get?`; a raised exception is `none` /
  `Except.error`.
-/

/-- Model of Python `str.rstrip()` (with no argument): drop trailing
whitespace characters. -/
def String.rstrip (s : String) : String :=
  ⟨(s.data.reverse.dropWhile Char.isWhitespace).reverse⟩

/-- Model of Python `str.strip()` (with no argument): drop leading and
trailing whitespace characters. -/
def String.strip (s : String) : String :=
  ⟨((s.data.dropWhile Char.isWhitespace).reverse.dropWhile Char.isWhitespace).reverse⟩

/-- Helper for `String.splitComma`: split the remaining characters at every
comma, `acc` holding the current field reversed. -/
def String.splitCommaAux : List Char → List Char → List String
  | [], acc => [⟨acc.reverse⟩]
  | c :: cs, acc =>
    if c = ',' then ⟨acc.reverse⟩ :: splitCommaAux cs []
    else splitCommaAux cs (c :: acc)

/-- Model of Python `line.split(",")`: always returns at least one field;
an empty line yields `[""]`. -/
def String.splitComma (s : String) : List String :=
  String.splitCommaAux s.data []

namespace PyRako

/-- Record built by `get_hub_info` (`model.py`, `HubInfo`). -/
structure HubInfo where
  protocol_version : String
  hub_id : String
  mac_address : String
  hub_version : String
deriving Repr, DecidableEq

/-- Record built by `_to_room` (`model.py`, `Room`); the source spells the
second attribute `room_tile`. -/
structure Room where
  room_id : String
  room_tile : String
  room_type : String
  room_mode : String
deriving Repr, DecidableEq

/-- Record built by `_to_channel` (`model.py`, `Channel`): sixteen discrete
scene fields. -/
structure Channel where
  room_id : String
  room_tile : String
  room_type : String
  room_mode : String
  channel_id : String
  channel_title : String
  channel_type : String
  scene1 : String
  scene2 : String
  scene3 : String
  scene4 : String
  scene5 : String
  scene6 : String
  scene7 : String
  scene8 : String
  scene9 : String
  scene10 : String
  scene11 : String
  scene12 : String
  scene13 : String
  scene14 : String
  scene15 : String
  scene16 : String
deriving Repr, DecidableEq

/-- Record built by `_to_level` (`model.py`, `Level`). -/
structure Level where
  room_id : String
  channel_id : String
  current_scene : String
  current_level : String
  target_level : String
deriving Repr, DecidableEq

/-- Record built by `_to_scene` (`model.py`, `Scene`). -/
structure Scene where
  room_id : String
  scene_id : String
  scene_title : String
deriving Repr, DecidableEq

/-- Record built by `_to_colour` (`model.py`, `Colour`). -/
structure Colour where
  room_id : String
  room_title : String
  channel_id : String
  channel_title : String
  type : String
deriving Repr, DecidableEq

/-- Record built by `_to_colour_level` (`model.py`, `ColourLevel`). -/
structure ColourLevel where
  room_id : String
  channel_id : String
  type : String
  level : String
  red_or_kelvin : String
  green : String
  blue : String
deriving Repr, DecidableEq

/-- Connection state of a `RakoHub` instance: the constructor-validated
configuration plus the liveness of the writer transport (see the module
docstring for the `writer` encoding). -/
structure Conn where
  host : String
  port : Int
  client_name : String
  writer : Option (Option Bool)
deriving Repr, DecidableEq

/-- Observable I/O action performed by the client. -/
inductive Action where
  | openConn (host : String) (port : Int)
  | wrote (msg : String)
deriving Repr, DecidableEq

/-- State threaded through one public operation: the connection, the lines
still unread from the hub, and the trace of actions performed so far. -/
structure RunState where
  conn : Conn
  input : List String
  trace : List Action
deriving Repr, DecidableEq

/-- Condition of the `if` in `_reconnect`: `self._writer is None or
self._writer.transport is None or self._writer.transport.is_closing()`. -/
def needsReconnect (c : Conn) : Bool :=
  match c.writer with
  | none => true
  | some none => true
  | some (some closing) => closing

/-- Subscription request `"SUB,BASIC,V4,{0}\r\n".format(self.client_name)`. -/
def subRequest (c : Conn) : String :=
  "SUB,BASIC,V4," ++ c.client_name ++ "\r\n"

/-- Embedding of `_reconnect`: when the writer is absent or its transport is
gone or closing, open a fresh connection (whose transport is live), write the
subscription line and read (discard) exactly one reply line; otherwise do
nothing. -/
def reconnect (s : RunState) : RunState :=
  if needsReconnect s.conn then
    { conn := { s.conn with writer := some (some false) },
      input := s.input.drop 1,
      trace := s.trace ++ [Action.openConn s.conn.host s.conn.port,
                           Action.wrote (subRequest s.conn)] }
  else s

/-- Record one written request line in the trace. -/
def write (s : RunState) (msg : String) : RunState :=
  { s with trace := s.trace ++ [Action.wrote msg] }

/-- Request line built by `_query`: `"QUERY,{0}\r\n"` without a room id,
`"QUERY,{0},{1}\r\n"` with one. -/
def queryRequest (query : String) (room_id : Option Int) : String :=
  match room_id with
  | none => "QUERY," ++ query ++ "\r\n"
  | some r => "QUERY," ++ query ++ "," ++ toString r ++ "\r\n"

/-- Embedding of the `while True` read loop of `_query`: split each line on
commas; skip it when field 0 is `QUERY_HEADER`, stop when field 0 is
`QUERY_COMPLETE` (returning the rows so far and the unread lines), otherwise
parse it with `func` and append.  `none` models the operation failing
(a row parser raising, or the stream ending before `QUERY_COMPLETE`, in
which case the Python loop keeps reading `""` and `func` raises on it). -/
def queryLoop (func : List String → Option α) : List String → Option (List α × List String)
  | [] => none
  | line :: rest =>
    let data := line.splitComma
    if data.headD "" = "QUERY_HEADER" then
      queryLoop func rest
    else if data.headD "" = "QUERY_COMPLETE" then
      some ([], rest)
    else
      match func data, queryLoop func rest with
      | some row, some (rows, rem) => some (row :: rows, rem)
      | _, _ => none

/-- Embedding of `_query`: reconnect, write the request line, then run the
read loop on the remaining input. -/
def query (queryName : String) (func : List String → Option α) (room_id : Option Int)
    (s : RunState) : RunState × Option (List α) :=
  let s1 := write (reconnect s) (queryRequest queryName room_id)
  match queryLoop func s1.input with
  | none => ({ s1 with input := [] }, none)
  | some (rows, rem) => ({ s1 with input := rem }, some rows)

/-- Request line built by `_send`: `"SEND,{0},{1},{2},"` and then each value
appended by `request += str(val)` with no separator, then `"\r\n"`. -/
def sendRequest (command : String) (room_id channel_id : Int) (values : List Int) : String :=
  (values.foldl (fun acc v => acc ++ toString v)
    ("SEND," ++ toString room_id ++ "," ++ toString channel_id ++ "," ++ command ++ ",")) ++ "\r\n"

/-- Message of the `SendCommandError` raised by `_send`. -/
def sendErrorMsg (command : String) (room_id channel_id : Int) : String :=
  "Failed to send " ++ command ++ " command to room " ++ toString room_id ++
    " and channel " ++ toString channel_id

/-- Embedding of `_send`: reconnect, write the request, read exactly one
reply line; raise `SendCommandError` when its field 0 is `AERROR`. -/
def send (command : String) (room_id channel_id : Int) (values : List Int)
    (s : RunState) : RunState × Except String Unit :=
  let s1 := write (reconnect s) (sendRequest command room_id channel_id values)
  let response := (s1.input.headD "").splitComma
  if response.headD "" = "AERROR" then
    ({ s1 with input := s1.input.drop 1 },
     Except.error (sendErrorMsg command room_id channel_id))
  else
    ({ s1 with input := s1.input.drop 1 }, Except.ok ())

/-- Embedding of `_to_room`. -/
def to_room (data : List String) : Option Room := do
  let f1 ← data.get? 1
  let f2 ← data.get? 2
  let f3 ← data.get? 3
  let f4 ← data.get? 4
  pure { room_id := f1, room_tile := f2, room_type := f3, room_mode := f4.rstrip }

/-- Embedding of `_to_channel`: the 23 positional accesses `data[1]` ..
`data[23]` are written as one pattern on the first 24 fields; a shorter row
makes some access raise `IndexError`, i.e. `none`. -/
def to_channel (data : List String) : Option Channel :=
  match data with
  | _f0 :: f1 :: f2 :: f3 :: f4 :: f5 :: f6 :: f7 :: f8 :: f9 :: f10 :: f11 ::
    f12 :: f13 :: f14 :: f15 :: f16 :: f17 :: f18 :: f19 :: f20 :: f21 :: f22 ::
    f23 :: _rest =>
    some { room_id := f1, room_tile := f2, room_type := f3, room_mode := f4,
           channel_id := f5, channel_title := f6, channel_type := f7,
           scene1 := f8, scene2 := f9, scene3 := f10, scene4 := f11,
           scene5 := f12, scene6 := f13, scene7 := f14, scene8 := f15,
           scene9 := f16, scene10 := f17, scene11 := f18, scene12 := f19,
           scene13 := f20, scene14 := f21, scene15 := f22,
           scene16 := f23.rstrip }
  | _ => none

/-- Embedding of `_to_level`. -/
def to_level (data : List String) : Option Level := do
  let f1 ← data.get? 1
  let f2 ← data.get? 2
  let f3 ← data.get? 3
  let f4 ← data.get? 4
  let f5 ← data.get? 5
  pure { room_id := f1, channel_id := f2, current_scene := f3,
         current_level := f4, target_level := f5.rstrip }

/-- Embedding of `_to_scene`. -/
def to_scene (data : List String) : Option Scene := do
  let f1 ← data.get? 1
  let f2 ← data.get? 2
  let f3 ← data.get? 3
  pure { room_id := f1, scene_id := f2, scene_title := f3.rstrip }

/-- Embedding of `_to_colour`. -/
def to_colour (data : List String) : Option Colour := do
  let f1 ← data.get? 1
  let f2 ← data.get? 2
  let f3 ← data.get? 3
  let f4 ← data.get? 4
  let f5 ← data.get? 5
  pure { room_id := f1, room_title := f2, channel_id := f3,
         channel_title := f4, type := f5.rstrip }

/-- Embedding of `_to_colour_level`; note that `level` and `red_or_kelvin`
are both read from `data[4]`. -/
def to_colour_level (data : List String) : Option ColourLevel := do
  let f1 ← data.get? 1
  let f2 ← data.get? 2
  let f3 ← data.get? 3
  let f4 ← data.get? 4
  let f5 ← data.get? 5
  let f6 ← data.get? 6
  pure { room_id := f1, channel_id := f2, type := f3, level := f4,
         red_or_kelvin := f4, green := f5, blue := f6.rstrip }

/-- Embedding of `get_hub_info`: reconnect, write `STATUS,0\r\n`, read one
line and build `HubInfo` from its fields 2..5 (fields 0 and 1 ignored). -/
def get_hub_info (s : RunState) : RunState × Option HubInfo :=
  let s1 := write (reconnect s) "STATUS,0\r\n"
  let response := (s1.input.headD "").splitComma
  ({ s1 with input := s1.input.drop 1 },
   do
     let p ← response.get? 2
     let h ← response.get? 3
     let m ← response.get? 4
     let v ← response.get? 5
     pure { protocol_version := p, hub_id := h, mac_address := m, hub_version := v })

/-- Embedding of `get_rooms`. -/
def get_rooms (room_id : Option Int) (s : RunState) : RunState × Option (List Room) :=
  query "ROOM" to_room room_id s

/-- Embedding of `get_channels`. -/
def get_channels (room_id : Option Int) (s : RunState) : RunState × Option (List Channel) :=
  query "CHANNEL" to_channel room_id s

/-- Embedding of `get_levels`. -/
def get_levels (room_id : Option Int) (s : RunState) : RunState × Option (List Level) :=
  query "LEVEL" to_level room_id s

/-- Embedding of `get_scenes`. -/
def get_scenes (room_id : Option Int) (s : RunState) : RunState × Option (List Scene) :=
  query "SCENE" to_scene room_id s

/-- Embedding of `get_colours`. -/
def get_colours (room_id : Option Int) (s : RunState) : RunState × Option (List Colour) :=
  query "COLOR" to_colour room_id s

/-- Embedding of `get_colours_levels`. -/
def get_colours_levels (room_id : Option Int) (s : RunState) : RunState × Option (List ColourLevel) :=
  query "COLOR_LEVEL" to_colour_level room_id s

/-- Embedding of `set_level`. -/
def set_level (room_id channel_id level : Int) (s : RunState) : RunState × Except String Unit :=
  send "LEVEL" room_id channel_id [level] s

/-- Embedding of `set_rgb`. -/
def set_rgb (room_id channel_id red green blue : Int) (s : RunState) : RunState × Except String Unit :=
  send "RGB" room_id channel_id [red, green, blue] s

/-- Embedding of `set_scene`. -/
def set_scene (room_id channel_id scene : Int) (s : RunState) : RunState × Except String Unit :=
  send "SCENE" room_id channel_id [scene] s

/-- Embedding of `set_kelvin`. -/
def set_kelvin (room_id channel_id temperature : Int) (s : RunState) : RunState × Except String Unit :=
  send "KELVIN" room_id channel_id [temperature] s

/-- Embedding of `start_fading_down`. -/
def start_fading_down (room_id channel_id : Int) (s : RunState) : RunState × Except String Unit :=
  send "FADE_DOWN" room_id channel_id [1] s

/-- Embedding of `start_fading_up`. -/
def start_fading_up (room_id channel_id : Int) (s : RunState) : RunState × Except String Unit :=
  send "FADE_UP" room_id channel_id [1] s

/-- Embedding of `stop_fading`. -/
def stop_fading (room_id channel_id : Int) (s : RunState) : RunState × Except String Unit :=
  send "FADE_STOP" room_id channel_id [1] s

/-- Embedding of `store_scene`. -/
def store_scene (room_id channel_id scene : Int) (s : RunState) : RunState × Except String Unit :=
  send "STORE" room_id channel_id [scene] s

/-- Embedding of `__init__`: validate host, port and client name in source
order and return the constructed connection (reader and writer unset); a
raised validation exception is `Except.error` with the source's message. -/
def mkRakoHub (client_name host : String) (port : Int) : Except String Conn :=
  let host := host.strip
  if host = "" then
    Except.error "RakoHub: host parameter cannot be empty"
  else if port < 0 ∨ port > 65535 then
    Except.error "RakoHub: port should be between 0 and 65535"
  else
    let client_name := client_name.strip
    if client_name = "" then
      Except.error "RakoHub: client_name parameter cannot be empty"
    else if client_name.data.contains ',' then
      Except.error "RakoHub: invalid character ',' in client_name"
    else
      Except.ok { host := host, port := port, client_name := client_name, writer := none }

end PyRako

namespace Rakopy

/-- Channel record of `src/rakopy/model.py`: the sixteen per-scene levels are
one ordered mapping `scenes_level` keyed by scene index. -/
structure Channel where
  room_id : String
  room_title : String
  room_type : String
  room_mode : String
  channel_id : String
  channel_title : String
  channel_type : String
  scenes_level : List (Nat × String)
deriving Repr, DecidableEq

/-- Modelled from the spec: the hub-client variant that populates
`src/rakopy/model.py`'s `Channel.scenes_level` is not under `src/` (only its
`model.py` is).  Per spec §4.2 and §8, a channel row parses like `_to_channel`
but folds the 16 consecutive scene-level fields (row fields 8..23) into an
ordered map keyed 1 through 16, the 16th field having its trailing line
terminator stripped. -/
def to_channel (data : List String) : Option Channel :=
  match data with
  | _f0 :: f1 :: f2 :: f3 :: f4 :: f5 :: f6 :: f7 :: f8 :: f9 :: f10 :: f11 ::
    f12 :: f13 :: f14 :: f15 :: f16 :: f17 :: f18 :: f19 :: f20 :: f21 :: f22 ::
    f23 :: _rest =>
    some { room_id := f1, room_title := f2, room_type := f3, room_mode := f4,
           channel_id := f5, channel_title := f6, channel_type := f7,
           scenes_level := [(1, f8), (2, f9), (3, f10), (4, f11), (5, f12),
                            (6, f13), (7, f14), (8, f15), (9, f16), (10, f17),
                            (11, f18), (12, f19), (13, f20), (14, f21),
                            (15, f22), (16, f23.rstrip)] }
  | _ => none

/-- Modelled from the spec: rakopy's `get_channels` dispatches the `CHANNEL`
query with the `scenes_level` row conversion, over the same query engine. -/
def get_channels (room_id : Option Int) (s : PyRako.RunState) :
    PyRako.RunState × Option (List Channel) :=
  PyRako.query "CHANNEL" to_channel room_id s

end Rakopy

/-- Computation rule for `to_colour_level` on a row with at least 7 fields. -/
lemma to_colour_level_cons (f0 f1 f2 f3 f4 f5 f6 : String) (rest : List String) :
    PyRako.to_colour_level (f0 :: f1 :: f2 :: f3 :: f4 :: f5 :: f6 :: rest) =
      some { room_id := f1, channel_id := f2, type := f3, level := f4,
             red_or_kelvin := f4, green := f5, blue := f6.rstrip } := rfl

/-- C10: for every colour-level response row, the `ColourLevel` record
returned by `get_colours_levels` has `level` equal to `red_or_kelvin` — both
read from row field index 4 — and `green` and `blue` read from fields 5 and
6, so the seven-attribute record is populated from only six distinct row
fields. -/
theorem c10_colour_level_duplicates_field4 :
    (∀ f0 f1 f2 f3 f4 f5 f6 rest,
      PyRako.to_colour_level (f0 :: f1 :: f2 :: f3 :: f4 :: f5 :: f6 :: rest) =
        some { room_id := f1, channel_id := f2, type := f3, level := f4,
               red_or_kelvin := f4, green := f5, blue := f6.rstrip }) ∧
    (∀ data cl, PyRako.to_colour_level data = some cl → cl.level = cl.red_or_kelvin) ∧
    (∀ room_id s, PyRako.get_colours_levels room_id s =
      PyRako.query "COLOR_LEVEL" PyRako.to_colour_level room_id s) := by
  refine ⟨to_colour_level_cons, ?_, fun room_id s => rfl⟩
  intro data cl h
  rcases data with _ | ⟨f0, _ | ⟨f1, _ | ⟨f2, _ | ⟨f3, _ | ⟨f4, _ | ⟨f5, _ | ⟨f6, rest⟩⟩⟩⟩⟩⟩⟩
  · exact Option.noConfusion h
  · exact Option.noConfusion h
  · exact Option.noConfusion h
  · exact Option.noConfusion h
  · exact Option.noConfusion h
  · exact Option.noConfusion h
  · exact Option.noConfusion h
  · rw [to_colour_level_cons] at h
    injection h with h'
    subst h'
    rfl

/-- C10 witness: the general row shape and the level-duplication law applied
at one concrete colour-level row. -/
theorem c10_witness :
    PyRako.to_colour_level ["CL", "1", "2", "RGB", "100", "200", "300\r\n"] =
        some { room_id := "1", channel_id := "2", type := "RGB", level := "100",
               red_or_kelvin := "100", green := "200", blue := "300" } ∧
    ∀ cl, PyRako.to_colour_level ["CL", "1", "2", "RGB", "100", "200", "300\r\n"] = some cl →
      cl.level = cl.red_or_kelvin := by
  constructor
  · exact (c10_colour_level_duplicates_field4.1 "CL" "1" "2" "RGB" "100" "200" "300\r\n" []).trans (by rfl)
  · exact fun cl h => c10_colour_level_duplicates_field4.2.1 _ cl h

/-- C4: every command operation writes exactly one request line
`SEND,<room_id>,<channel_id>,<command>,<value1><value2>...\r\n` with values
concatenated with no separator; LEVEL, SCENE, KELVIN and STORE carry one
value, RGB carries red, green, blue in order, and the three fade commands
carry the fixed sentinel 1. -/
theorem c4_send_request_shape :
    (∀ (cmd : String) (r c v : Int),
      PyRako.sendRequest cmd r c [v] =
        "SEND," ++ toString r ++ "," ++ toString c ++ "," ++ cmd ++ "," ++
          toString v ++ "\r\n") ∧
    (∀ (cmd : String) (r c x y z : Int),
      PyRako.sendRequest cmd r c [x, y, z] =
        "SEND," ++ toString r ++ "," ++ toString c ++ "," ++ cmd ++ "," ++
          toString x ++ toString y ++ toString z ++ "\r\n") ∧
    PyRako.sendRequest "RGB" 1 2 [10, 20, 30] = "SEND,1,2,RGB,102030\r\n" ∧
    PyRako.sendRequest "LEVEL" 1 2 [100] = "SEND,1,2,LEVEL,100\r\n" ∧
    PyRako.sendRequest "FADE_DOWN" 1 2 [1] = "SEND,1,2,FADE_DOWN,1\r\n" ∧
    (∀ r c v s, PyRako.set_level r c v s = PyRako.send "LEVEL" r c [v] s) ∧
    (∀ r c x y z s, PyRako.set_rgb r c x y z s = PyRako.send "RGB" r c [x, y, z] s) ∧
    (∀ r c v s, PyRako.set_scene r c v s = PyRako.send "SCENE" r c [v] s) ∧
    (∀ r c v s, PyRako.set_kelvin r c v s = PyRako.send "KELVIN" r c [v] s) ∧
    (∀ r c s, PyRako.start_fading_down r c s = PyRako.send "FADE_DOWN" r c [1] s) ∧
    (∀ r c s, PyRako.start_fading_up r c s = PyRako.send "FADE_UP" r c [1] s) ∧
    (∀ r c s, PyRako.stop_fading r c s = PyRako.send "FADE_STOP" r c [1] s) ∧
    (∀ r c v s, PyRako.store_scene r c v s = PyRako.send "STORE" r c [v] s) ∧
    (∀ cmd r c vs s, (PyRako.send cmd r c vs s).1.trace =
        (PyRako.reconnect s).trace ++ [PyRako.Action.wrote (PyRako.sendRequest cmd r c vs)]) := by
  refine ⟨fun cmd r c v => rfl, fun cmd r c x y z => rfl, by rfl, by rfl, by rfl,
    fun r c v s => rfl, fun r c x y z s => rfl, fun r c v s => rfl, fun r c v s => rfl,
    fun r c s => rfl, fun r c s => rfl, fun r c s => rfl, fun r c v s => rfl, ?_⟩
  intro cmd r c vs s
  unfold PyRako.send
  dsimp only
  split <;> simp [PyRako.write]

/-- C6: a channel response row with 16 trailing scene fields produces a
`scenes_level` ordered mapping with exactly the keys 1..16 in order, each
mapped to the corresponding row value, the 16th with its trailing line
terminator stripped; `get_channels` returns such records through the query
engine. -/
theorem c6_scenes_level :
    (∀ (f0 f1 f2 f3 f4 f5 f6 f7 f8 f9 f10 f11 f12 f13 f14 f15 f16 f17 f18 f19
        f20 f21 f22 f23 : String) (rest : List String),
      Rakopy.to_channel (f0 :: f1 :: f2 :: f3 :: f4 :: f5 :: f6 :: f7 :: f8 ::
          f9 :: f10 :: f11 :: f12 :: f13 :: f14 :: f15 :: f16 :: f17 :: f18 ::
          f19 :: f20 :: f21 :: f22 :: f23 :: rest) =
        some { room_id := f1, room_title := f2, room_type := f3, room_mode := f4,
               channel_id := f5, channel_title := f6, channel_type := f7,
               scenes_level := [(1, f8), (2, f9), (3, f10), (4, f11), (5, f12),
                                (6, f13), (7, f14), (8, f15), (9, f16), (10, f17),
                                (11, f18), (12, f19), (13, f20), (14, f21),
                                (15, f22), (16, f23.rstrip)] }) ∧
    (∀ room_id s, Rakopy.get_channels room_id s =
      PyRako.query "CHANNEL" Rakopy.to_channel room_id s) ∧
    (∀ (s : PyRako.RunState) (line : String)
        (f0 f1 f2 f3 f4 f5 f6 f7 f8 f9 f10 f11 f12 f13 f14 f15 f16 f17 f18 f19
         f20 f21 f22 f23 : String) (extra : List String) (room_id : Option Int),
      s.conn.writer = some (some false) →
      line.splitComma = f0 :: f1 :: f2 :: f3 :: f4 :: f5 :: f6 :: f7 :: f8 ::
          f9 :: f10 :: f11 :: f12 :: f13 :: f14 :: f15 :: f16 :: f17 :: f18 ::
          f19 :: f20 :: f21 :: f22 :: f23 :: extra →
      f0 ≠ "QUERY_HEADER" → f0 ≠ "QUERY_COMPLETE" →
      (Rakopy.get_channels room_id { s with input := [line, "QUERY_COMPLETE"] }).2 =
        some [{ room_id := f1, room_title := f2, room_type := f3, room_mode := f4,
                channel_id := f5, channel_title := f6, channel_type := f7,
                scenes_level := [(1, f8), (2, f9), (3, f10), (4, f11), (5, f12),
                                 (6, f13), (7, f14), (8, f15), (9, f16), (10, f17),
                                 (11, f18), (12, f19), (13, f20), (14, f21),
                                 (15, f22), (16, f23.rstrip)] }]) := by
  refine ⟨fun f0 f1 f2 f3 f4 f5 f6 f7 f8 f9 f10 f11 f12 f13 f14 f15 f16 f17 f18
    f19 f20 f21 f22 f23 rest => rfl, fun room_id s => rfl, ?_⟩
  intro s line f0 f1 f2 f3 f4 f5 f6 f7 f8 f9 f10 f11 f12 f13 f14 f15 f16 f17 f18
    f19 f20 f21 f22 f23 extra room_id hw hsplit h1 h2
  simp [Rakopy.get_channels, PyRako.query, PyRako.reconnect, PyRako.needsReconnect,
    hw, PyRako.write, PyRako.queryLoop, hsplit, h1, h2, Rakopy.to_channel,
    show "QUERY_COMPLETE".splitComma = ["QUERY_COMPLETE"] from rfl]

/-- C6 witness: one concrete channel row with 16 trailing scene fields,
streamed through `get_channels`. -/
theorem c6_witness :
    (Rakopy.get_channels none
      { conn := { host := "h", port := 9761, client_name := "cli", writer := some (some false) },
        input := ["CHANNEL,1,Kitchen,Switch,LIGHT,2,Spot,Dim,10,20,30,40,50,60,70,80,90,100,110,120,130,140,150,160\r\n",
                  "QUERY_COMPLETE"],
        trace := [] }).2 =
      some [{ room_id := "1", room_title := "Kitchen", room_type := "Switch",
              room_mode := "LIGHT", channel_id := "2", channel_title := "Spot",
              channel_type := "Dim",
              scenes_level := [(1, "10"), (2, "20"), (3, "30"), (4, "40"),
                               (5, "50"), (6, "60"), (7, "70"), (8, "80"),
                               (9, "90"), (10, "100"), (11, "110"), (12, "120"),
                               (13, "130"), (14, "140"), (15, "150"), (16, "160")] }] := by
  have h := c6_scenes_level.2.2
    { conn := { host := "h", port := 9761, client_name := "cli", writer := some (some false) },
      input := ["CHANNEL,1,Kitchen,Switch,LIGHT,2,Spot,Dim,10,20,30,40,50,60,70,80,90,100,110,120,130,140,150,160\r\n",
                "QUERY_COMPLETE"],
      trace := [] }
    "CHANNEL,1,Kitchen,Switch,LIGHT,2,Spot,Dim,10,20,30,40,50,60,70,80,90,100,110,120,130,140,150,160\r\n"
    "CHANNEL" "1" "Kitchen" "Switch" "LIGHT" "2" "Spot" "Dim" "10" "20" "30" "40"
    "50" "60" "70" "80" "90" "100" "110" "120" "130" "140" "150" "160\r\n" [] none
    (by rfl) (by rfl) (by decide) (by decide)
  exact h.trans (by rfl)

/-- C7 counterexample: `get_hub_info` stores the last field it consumes
(`hub_version`, field 5 of the STATUS reply) without stripping its trailing
line terminator, so the claim fails for the `HubInfo` case. -/
theorem c7_counterexample :
    ((PyRako.get_hub_info
        { conn := { host := "h", port := 9761, client_name := "cli", writer := some (some false) },
          input := ["Status,0,11,HUB1,AABBCC,2.4.7\r\n"],
          trace := [] }).2).map PyRako.HubInfo.hub_version = some "2.4.7\r\n" ∧
      ("2.4.7\r\n" : String) ≠ "2.4.7\r\n".rstrip := by
  exact ⟨rfl, by decide⟩

/-- C7 amended: for every response row of the six entity types handled by the
row parsers — Room, Channel, Level, Scene, Colour, ColourLevel — the last
field consumed by the parser has its trailing line terminator stripped before
being stored; the STATUS reply parsed into HubInfo is the exception: its last
consumed field (`hub_version`) is stored unstripped. -/
theorem c7_last_consumed_field_stripped :
    (∀ f0 f1 f2 f3 f4 rest, PyRako.to_room (f0 :: f1 :: f2 :: f3 :: f4 :: rest) =
      some { room_id := f1, room_tile := f2, room_type := f3, room_mode := f4.rstrip }) ∧
    (∀ (f0 f1 f2 f3 f4 f5 f6 f7 f8 f9 f10 f11 f12 f13 f14 f15 f16 f17 f18 f19
        f20 f21 f22 f23 : String) (rest : List String),
      (PyRako.to_channel (f0 :: f1 :: f2 :: f3 :: f4 :: f5 :: f6 :: f7 :: f8 ::
          f9 :: f10 :: f11 :: f12 :: f13 :: f14 :: f15 :: f16 :: f17 :: f18 ::
          f19 :: f20 :: f21 :: f22 :: f23 :: rest)).map PyRako.Channel.scene16 =
        some f23.rstrip) ∧
    (∀ f0 f1 f2 f3 f4 f5 rest, PyRako.to_level (f0 :: f1 :: f2 :: f3 :: f4 :: f5 :: rest) =
      some { room_id := f1, channel_id := f2, current_scene := f3,
             current_level := f4, target_level := f5.rstrip }) ∧
    (∀ f0 f1 f2 f3 rest, PyRako.to_scene (f0 :: f1 :: f2 :: f3 :: rest) =
      some { room_id := f1, scene_id := f2, scene_title := f3.rstrip }) ∧
    (∀ f0 f1 f2 f3 f4 f5 rest, PyRako.to_colour (f0 :: f1 :: f2 :: f3 :: f4 :: f5 :: rest) =
      some { room_id := f1, room_title := f2, channel_id := f3,
             channel_title := f4, type := f5.rstrip }) ∧
    (∀ f0 f1 f2 f3 f4 f5 f6 rest,
      (PyRako.to_colour_level (f0 :: f1 :: f2 :: f3 :: f4 :: f5 :: f6 :: rest)).map
          PyRako.ColourLevel.blue = some f6.rstrip) ∧
    (∀ (s : PyRako.RunState) (line : String) (g0 g1 p h m v : String)
        (extra : List String) (rest : List String),
      s.conn.writer = some (some false) →
      s.input = line :: rest →
      line.splitComma = g0 :: g1 :: p :: h :: m :: v :: extra →
      ((PyRako.get_hub_info s).2).map PyRako.HubInfo.hub_version = some v) := by
  refine ⟨fun f0 f1 f2 f3 f4 rest => rfl,
    fun f0 f1 f2 f3 f4 f5 f6 f7 f8 f9 f10 f11 f12 f13 f14 f15 f16 f17 f18 f19
      f20 f21 f22 f23 rest => rfl,
    fun f0 f1 f2 f3 f4 f5 rest => rfl,
    fun f0 f1 f2 f3 rest => rfl,
    fun f0 f1 f2 f3 f4 f5 rest => rfl,
    fun f0 f1 f2 f3 f4 f5 f6 rest => rfl, ?_⟩
  intro s line g0 g1 p h m v extra rest hw hin hsplit
  simp [PyRako.get_hub_info, PyRako.reconnect, PyRako.needsReconnect, hw,
    PyRako.write, hin, hsplit]

/-- C7 amended-theorem witness: the unstripped `hub_version` law at one
concrete STATUS reply. -/
theorem c7_witness :
    ((PyRako.get_hub_info
        { conn := { host := "h", port := 9761, client_name := "cli", writer := some (some false) },
          input := ["Status,0,11,HUB9,AABB,3.1\r\n"],
          trace := [] }).2).map PyRako.HubInfo.hub_version = some "3.1\r\n" := by
  exact c7_last_consumed_field_stripped.2.2.2.2.2.2
    { conn := { host := "h", port := 9761, client_name := "cli", writer := some (some false) },
      input := ["Status,0,11,HUB9,AABB,3.1\r\n"], trace := [] }
    "Status,0,11,HUB9,AABB,3.1\r\n" "Status" "0" "11" "HUB9" "AABB" "3.1\r\n" [] []
    (by rfl) (by rfl) (by rfl)

/-- C9: `get_hub_info` bypasses the query framing: it writes exactly
`STATUS,0\r\n`, reads exactly one response line (no header or terminator
lines), and builds `HubInfo` positionally from that line, ignoring the first
two comma-separated fields and taking `protocol_version`, `hub_id`,
`mac_address`, `hub_version` from fields 3, 4, 5 and 6 (indices 2..5). -/
theorem c9_hub_info_protocol :
    (∀ s, (PyRako.get_hub_info s).1.trace =
      (PyRako.reconnect s).trace ++ [PyRako.Action.wrote "STATUS,0\r\n"]) ∧
    (∀ s, (PyRako.get_hub_info s).1.input = (PyRako.reconnect s).input.drop 1) ∧
    (∀ (s : PyRako.RunState) (line : String) (rest : List String)
        (g0 g1 p h m v : String) (extra : List String),
      s.conn.writer = some (some false) →
      s.input = line :: rest →
      line.splitComma = g0 :: g1 :: p :: h :: m :: v :: extra →
      (PyRako.get_hub_info s).2 =
        some { protocol_version := p, hub_id := h, mac_address := m, hub_version := v } ∧
      (PyRako.get_hub_info s).1.input = rest) := by
  refine ⟨fun s => rfl, fun s => rfl, ?_⟩
  intro s line rest g0 g1 p h m v extra hw hin hsplit
  constructor
  · simp [PyRako.get_hub_info, PyRako.reconnect, PyRako.needsReconnect, hw,
      PyRako.write, hin, hsplit]
  · simp [PyRako.get_hub_info, PyRako.reconnect, PyRako.needsReconnect, hw,
      PyRako.write, hin]

/-- C9 witness at one concrete STATUS reply. -/
theorem c9_witness :
    (PyRako.get_hub_info
        { conn := { host := "h", port := 9761, client_name := "cli", writer := some (some false) },
          input := ["Status,0,11,HUB9,AA:BB:CC,3.1\r\n", "later"],
          trace := [] }).2 =
      some { protocol_version := "11", hub_id := "HUB9", mac_address := "AA:BB:CC",
             hub_version := "3.1\r\n" } := by
  exact (c9_hub_info_protocol.2.2
    { conn := { host := "h", port := 9761, client_name := "cli", writer := some (some false) },
      input := ["Status,0,11,HUB9,AA:BB:CC,3.1\r\n", "later"], trace := [] }
    "Status,0,11,HUB9,AA:BB:CC,3.1\r\n" ["later"] "Status" "0" "11" "HUB9"
    "AA:BB:CC" "3.1\r\n" [] (by rfl) (by rfl) (by rfl)).1

/-- C5: constructing the client fails with a configuration error exactly when
the host is empty after trimming, the port is outside 0..65535, or the client
name is empty after trimming or contains a comma; a successful construction
stores the trimmed configuration and opens no socket (both reader and writer
stay unset, i.e. `writer = none`). -/
theorem c5_constructor_validation :
    (∀ cn host (port : Int),
      (∃ c, PyRako.mkRakoHub cn host port = Except.ok c) ↔
        ¬(host.strip = "" ∨ port < 0 ∨ port > 65535 ∨ cn.strip = "" ∨
          cn.strip.data.contains ',' = true)) ∧
    (∀ cn host (port : Int) c, PyRako.mkRakoHub cn host port = Except.ok c →
      c.writer = none ∧ c.host = host.strip ∧ c.port = port ∧
        c.client_name = cn.strip) := by
  constructor
  · intro cn host port
    simp only [PyRako.mkRakoHub]
    split_ifs with h1 h2 h3 h4
    · exact iff_of_false (by rintro ⟨c, hc⟩; exact hc)
        (not_not_intro (by tauto))
    · exact iff_of_false (by rintro ⟨c, hc⟩; exact hc)
        (not_not_intro (by tauto))
    · exact iff_of_false (by rintro ⟨c, hc⟩; exact hc)
        (not_not_intro (by tauto))
    · exact iff_of_false (by rintro ⟨c, hc⟩; exact hc)
        (not_not_intro (by tauto))
    · exact iff_of_true ⟨_, rfl⟩ (by tauto)
  · intro cn host port c h
    simp only [PyRako.mkRakoHub] at h
    split_ifs at h with h1 h2 h3 h4
    cases h
    exact ⟨rfl, rfl, rfl, rfl⟩

/-- C5 witness: ports 0 and 65535 accepted (with `writer = none`), port -1
and 65536 rejected, whitespace-only host rejected, comma in the client name
rejected. -/
theorem c5_witness :
    (∃ c, PyRako.mkRakoHub "cli" "host" 0 = Except.ok c) ∧
    (∃ c, PyRako.mkRakoHub "cli" "host" 65535 = Except.ok c) ∧
    ¬(∃ c, PyRako.mkRakoHub "cli" "host" (-1) = Except.ok c) ∧
    ¬(∃ c, PyRako.mkRakoHub "cli" "host" 65536 = Except.ok c) ∧
    ¬(∃ c, PyRako.mkRakoHub "cli" "  " 9761 = Except.ok c) ∧
    ¬(∃ c, PyRako.mkRakoHub "c,li" "host" 9761 = Except.ok c) ∧
    (∀ c, PyRako.mkRakoHub "cli" "host" 0 = Except.ok c → c.writer = none) := by
  refine ⟨(c5_constructor_validation.1 "cli" "host" 0).mpr (by decide),
    (c5_constructor_validation.1 "cli" "host" 65535).mpr (by decide),
    fun hc => absurd ((c5_constructor_validation.1 "cli" "host" (-1)).mp hc) (by decide),
    fun hc => absurd ((c5_constructor_validation.1 "cli" "host" 65536).mp hc) (by decide),
    fun hc => absurd ((c5_constructor_validation.1 "cli" "  " 9761).mp hc) (by decide),
    fun hc => absurd ((c5_constructor_validation.1 "c,li" "host" 9761).mp hc) (by decide),
    fun c h => (c5_constructor_validation.2 "cli" "host" 0 c h).1⟩

/-- C3: every command operation reads exactly one response line after the
request, and fails with the send-command error naming the command, room and
channel if and only if the line's first comma-separated field is `AERROR`;
any other first field returns success with the rest of the line
uninterpreted. -/
theorem c3_send_error_iff_aerror :
    (∀ cmd (r ch : Int) vs s,
      (PyRako.send cmd r ch vs s).1.input = (PyRako.reconnect s).input.drop 1 ∧
      ((PyRako.send cmd r ch vs s).2 = Except.error (PyRako.sendErrorMsg cmd r ch) ↔
        (((PyRako.reconnect s).input.headD "").splitComma).headD "" = "AERROR") ∧
      ((((PyRako.reconnect s).input.headD "").splitComma).headD "" ≠ "AERROR" →
        (PyRako.send cmd r ch vs s).2 = Except.ok ())) ∧
    (∀ cmd (r ch : Int), PyRako.sendErrorMsg cmd r ch =
      "Failed to send " ++ cmd ++ " command to room " ++ toString r ++
        " and channel " ++ toString ch) ∧
    (∀ (r ch v : Int) s, PyRako.set_level r ch v s = PyRako.send "LEVEL" r ch [v] s) ∧
    (∀ (r ch x y z : Int) s, PyRako.set_rgb r ch x y z s = PyRako.send "RGB" r ch [x, y, z] s) ∧
    (∀ (r ch v : Int) s, PyRako.set_scene r ch v s = PyRako.send "SCENE" r ch [v] s) ∧
    (∀ (r ch v : Int) s, PyRako.set_kelvin r ch v s = PyRako.send "KELVIN" r ch [v] s) ∧
    (∀ (r ch : Int) s, PyRako.start_fading_down r ch s = PyRako.send "FADE_DOWN" r ch [1] s) ∧
    (∀ (r ch : Int) s, PyRako.start_fading_up r ch s = PyRako.send "FADE_UP" r ch [1] s) ∧
    (∀ (r ch : Int) s, PyRako.stop_fading r ch s = PyRako.send "FADE_STOP" r ch [1] s) ∧
    (∀ (r ch v : Int) s, PyRako.store_scene r ch v s = PyRako.send "STORE" r ch [v] s) := by
  refine ⟨?_, fun cmd r ch => rfl, fun r ch v s => rfl, fun r ch x y z s => rfl,
    fun r ch v s => rfl, fun r ch v s => rfl, fun r ch s => rfl, fun r ch s => rfl,
    fun r ch s => rfl, fun r ch v s => rfl⟩
  intro cmd r ch vs s
  unfold PyRako.send
  dsimp only
  split
  next hcond =>
    exact ⟨rfl, iff_of_true rfl hcond, fun hne => absurd hcond hne⟩
  next hcond =>
    exact ⟨rfl, iff_of_false (fun h => Except.noConfusion h) hcond, fun _ => rfl⟩

/-- C3 witness: a mocked `AERROR` reply fails `set_level` with the message
naming command LEVEL, room 1, channel 2; a mocked `ACK` reply succeeds. -/
theorem c3_witness :
    (PyRako.send "LEVEL" 1 2 [100]
        { conn := { host := "h", port := 9761, client_name := "cli", writer := some (some false) },
          input := ["AERROR,5\r\n"], trace := [] }).2 =
      Except.error "Failed to send LEVEL command to room 1 and channel 2" ∧
    (PyRako.send "LEVEL" 1 2 [100]
        { conn := { host := "h", port := 9761, client_name := "cli", writer := some (some false) },
          input := ["ACK\r\n"], trace := [] }).2 = Except.ok () := by
  constructor
  · exact (((c3_send_error_iff_aerror.1 "LEVEL" 1 2 [100]
      { conn := { host := "h", port := 9761, client_name := "cli", writer := some (some false) },
        input := ["AERROR,5\r\n"], trace := [] }).2.1).mpr (by rfl)).trans (by rfl)
  · exact (c3_send_error_iff_aerror.1 "LEVEL" 1 2 [100]
      { conn := { host := "h", port := 9761, client_name := "cli", writer := some (some false) },
        input := ["ACK\r\n"], trace := [] }).2.2 (by decide)

/-- C2: every public operation starts with the reconnect step: when the
writer is absent or its transport is gone, closed or closing, a new TCP
connection to (host, port) is opened, the single line
`SUB,BASIC,V4,<client_name>\r\n` is written and exactly one reply line is
read and discarded; on a live transport nothing is written or read, so two
consecutive calls on an open non-closing transport never re-send the
handshake, while a call after the transport reports closing does. -/
theorem c2_reconnect_per_call {α : Type} :
    (∀ c, PyRako.needsReconnect c = true ↔
      (c.writer = none ∨ c.writer = some none ∨ c.writer = some (some true))) ∧
    (∀ s, PyRako.needsReconnect s.conn = true →
      PyRako.reconnect s =
        { conn := { s.conn with writer := some (some false) },
          input := s.input.drop 1,
          trace := s.trace ++ [PyRako.Action.openConn s.conn.host s.conn.port,
            PyRako.Action.wrote ("SUB,BASIC,V4," ++ s.conn.client_name ++ "\r\n")] }) ∧
    (∀ s, PyRako.needsReconnect s.conn = false → PyRako.reconnect s = s) ∧
    (∀ s, s.conn.writer = some (some false) →
      PyRako.reconnect s = s ∧ PyRako.reconnect (PyRako.reconnect s) = s) ∧
    (∀ s, s.conn.writer = some (some true) →
      (PyRako.reconnect s).trace = s.trace ++ [PyRako.Action.openConn s.conn.host s.conn.port,
        PyRako.Action.wrote (PyRako.subRequest s.conn)]) ∧
    (∀ qn (func : List String → Option α) room s,
      (PyRako.query qn func room s).1.trace =
        (PyRako.reconnect s).trace ++ [PyRako.Action.wrote (PyRako.queryRequest qn room)]) ∧
    (∀ cmd (r ch : Int) vs s, (PyRako.send cmd r ch vs s).1.trace =
      (PyRako.reconnect s).trace ++ [PyRako.Action.wrote (PyRako.sendRequest cmd r ch vs)]) ∧
    (∀ s, (PyRako.get_hub_info s).1.trace =
      (PyRako.reconnect s).trace ++ [PyRako.Action.wrote "STATUS,0\r\n"]) := by
  have hfalse : ∀ s : PyRako.RunState, s.conn.writer = some (some false) →
      PyRako.needsReconnect s.conn = false := by
    intro s h
    simp [PyRako.needsReconnect, h]
  refine ⟨?_, ?_, ?_, ?_, ?_, ?_, ?_, fun s => rfl⟩
  · intro c
    rcases hc : c.writer with _ | w
    · simp [PyRako.needsReconnect, hc]
    · rcases w with _ | b
      · simp [PyRako.needsReconnect, hc]
      · cases b <;> simp [PyRako.needsReconnect, hc]
  · intro s h
    simp [PyRako.reconnect, h, PyRako.subRequest]
  · intro s h
    simp [PyRako.reconnect, h]
  · intro s h
    have hr : PyRako.reconnect s = s := by simp [PyRako.reconnect, hfalse s h]
    exact ⟨hr, by rw [hr, hr]⟩
  · intro s h
    have : PyRako.needsReconnect s.conn = true := by simp [PyRako.needsReconnect, h]
    simp [PyRako.reconnect, this]
  · intro qn func room s
    unfold PyRako.query
    dsimp only
    split <;> simp [PyRako.write]
  · intro cmd r ch vs s
    unfold PyRako.send
    dsimp only
    split <;> simp [PyRako.write]

/-- C2 witness: concrete runs with an absent, a live and a closing writer. -/
theorem c2_witness :
    PyRako.reconnect
        { conn := { host := "h", port := 9761, client_name := "cli", writer := none },
          input := ["ack\r\n", "more"], trace := [] } =
      { conn := { host := "h", port := 9761, client_name := "cli", writer := some (some false) },
        input := ["more"],
        trace := [PyRako.Action.openConn "h" 9761,
                  PyRako.Action.wrote "SUB,BASIC,V4,cli\r\n"] } ∧
    PyRako.reconnect
        { conn := { host := "h", port := 9761, client_name := "cli", writer := some (some false) },
          input := ["x"], trace := [] } =
      { conn := { host := "h", port := 9761, client_name := "cli", writer := some (some false) },
        input := ["x"], trace := [] } ∧
    PyRako.reconnect (PyRako.reconnect
        { conn := { host := "h", port := 9761, client_name := "cli", writer := some (some false) },
          input := ["x"], trace := [] }) =
      { conn := { host := "h", port := 9761, client_name := "cli", writer := some (some false) },
        input := ["x"], trace := [] } ∧
    (PyRako.reconnect
        { conn := { host := "h", port := 9761, client_name := "cli", writer := some (some true) },
          input := ["ack\r\n"], trace := [] }).trace =
      [PyRako.Action.openConn "h" 9761, PyRako.Action.wrote (PyRako.subRequest
        { host := "h", port := 9761, client_name := "cli", writer := some (some true) })] := by
  refine ⟨(c2_reconnect_per_call (α := Unit)).2.1 _ (by decide), ?_, ?_, ?_⟩
  · exact ((c2_reconnect_per_call (α := Unit)).2.2.2.1 _ (by rfl)).1
  · exact ((c2_reconnect_per_call (α := Unit)).2.2.2.1 _ (by rfl)).2
  · exact (c2_reconnect_per_call (α := Unit)).2.2.2.2.1 _ (by rfl)

/-- C8: a query response row with fewer comma-separated fields than its
entity schema requires makes the row parser raise (`none`), and a failing
row parser makes the whole in-flight query fail rather than return records
with truncated or defaulted fields. -/
theorem c8_short_row_fails {α : Type} :
    (∀ data, data.length < 5 → PyRako.to_room data = none) ∧
    (∀ data, data.length < 24 → PyRako.to_channel data = none) ∧
    (∀ data, data.length < 6 → PyRako.to_level data = none) ∧
    (∀ data, data.length < 4 → PyRako.to_scene data = none) ∧
    (∀ data, data.length < 6 → PyRako.to_colour data = none) ∧
    (∀ data, data.length < 7 → PyRako.to_colour_level data = none) ∧
    (∀ (func : List String → Option α) line rest,
      (line.splitComma).headD "" ≠ "QUERY_HEADER" →
      (line.splitComma).headD "" ≠ "QUERY_COMPLETE" →
      func line.splitComma = none →
      PyRako.queryLoop func (line :: rest) = none) ∧
    (∀ qn (func : List String → Option α) room s,
      PyRako.queryLoop func (PyRako.reconnect s).input = none →
      (PyRako.query qn func room s).2 = none) := by
  refine ⟨?_, ?_, ?_, ?_, ?_, ?_, ?_, ?_⟩
  · intro data h
    rcases data with _ | ⟨a0, _ | ⟨a1, _ | ⟨a2, _ | ⟨a3, _ | ⟨a4, rest⟩⟩⟩⟩⟩
    all_goals first | rfl | (simp at h; omega)
  · intro data h
    rcases data with _ | ⟨a0, _ | ⟨a1, _ | ⟨a2, _ | ⟨a3, _ | ⟨a4, _ | ⟨a5, _ | ⟨a6,
      _ | ⟨a7, _ | ⟨a8, _ | ⟨a9, _ | ⟨a10, _ | ⟨a11, _ | ⟨a12, _ | ⟨a13, _ | ⟨a14,
      _ | ⟨a15, _ | ⟨a16, _ | ⟨a17, _ | ⟨a18, _ | ⟨a19, _ | ⟨a20, _ | ⟨a21,
      _ | ⟨a22, _ | ⟨a23, rest⟩⟩⟩⟩⟩⟩⟩⟩⟩⟩⟩⟩⟩⟩⟩⟩⟩⟩⟩⟩⟩⟩⟩⟩
    all_goals first | rfl | (simp at h; omega)
  · intro data h
    rcases data with _ | ⟨a0, _ | ⟨a1, _ | ⟨a2, _ | ⟨a3, _ | ⟨a4, _ | ⟨a5, rest⟩⟩⟩⟩⟩⟩
    all_goals first | rfl | (simp at h; omega)
  · intro data h
    rcases data with _ | ⟨a0, _ | ⟨a1, _ | ⟨a2, _ | ⟨a3, rest⟩⟩⟩⟩
    all_goals first | rfl | (simp at h; omega)
  · intro data h
    rcases data with _ | ⟨a0, _ | ⟨a1, _ | ⟨a2, _ | ⟨a3, _ | ⟨a4, _ | ⟨a5, rest⟩⟩⟩⟩⟩⟩
    all_goals first | rfl | (simp at h; omega)
  · intro data h
    rcases data with _ | ⟨a0, _ | ⟨a1, _ | ⟨a2, _ | ⟨a3, _ | ⟨a4, _ | ⟨a5, _ | ⟨a6, rest⟩⟩⟩⟩⟩⟩⟩
    all_goals first | rfl | (simp at h; omega)
  · intro func line rest h1 h2 hf
    rw [PyRako.queryLoop]
    rw [if_neg h1, if_neg h2, hf]
  · intro qn func room s h
    unfold PyRako.query
    dsimp only
    split
    · rfl
    next heq =>
      rw [show (PyRako.write (PyRako.reconnect s) (PyRako.queryRequest qn room)).input =
        (PyRako.reconnect s).input from rfl] at heq
      rw [h] at heq
      exact Option.noConfusion heq

/-- C8 witness: a four-field channel row fails `to_channel`, and a query
stream containing it fails the whole `get_channels` call. -/
theorem c8_witness :
    PyRako.to_channel ["CHANNEL", "1", "Kitchen", "2"] = none ∧
    PyRako.to_room ["ROOM", "1"] = none ∧
    PyRako.queryLoop PyRako.to_channel ["CHANNEL,1,Kitchen,2", "QUERY_COMPLETE"] = none ∧
    (PyRako.query "CHANNEL" PyRako.to_channel none
        { conn := { host := "h", port := 9761, client_name := "cli", writer := some (some false) },
          input := ["CHANNEL,1,Kitchen,2", "QUERY_COMPLETE"], trace := [] }).2 = none := by
  have h3 : PyRako.queryLoop PyRako.to_channel ["CHANNEL,1,Kitchen,2", "QUERY_COMPLETE"] = none :=
    (c8_short_row_fails (α := PyRako.Channel)).2.2.2.2.2.2.1 PyRako.to_channel
      "CHANNEL,1,Kitchen,2" ["QUERY_COMPLETE"] (by decide) (by decide)
      ((c8_short_row_fails (α := PyRako.Channel)).2.1 ["CHANNEL", "1", "Kitchen", "2"] (by decide))
  refine ⟨(c8_short_row_fails (α := PyRako.Channel)).2.1 _ (by decide),
    (c8_short_row_fails (α := PyRako.Channel)).1 _ (by decide), h3, ?_⟩
  exact (c8_short_row_fails (α := PyRako.Channel)).2.2.2.2.2.2.2 "CHANNEL"
    PyRako.to_channel none _ h3

/-- C1: every query operation writes the single request line
`QUERY,<query-name>\r\n` (or `QUERY,<query-name>,<room_id>\r\n` when a room
id is given) and then reads lines one at a time: lines whose first field is
`QUERY_HEADER` are skipped, the first line whose first field is
`QUERY_COMPLETE` stops reading, and every other line is parsed and appended;
the result is exactly the parsed rows in the hub's line order. -/
theorem c1_query_protocol {α : Type} :
    (∀ q, PyRako.queryRequest q none = "QUERY," ++ q ++ "\r\n") ∧
    (∀ q (r : Int), PyRako.queryRequest q (some r) =
      "QUERY," ++ q ++ "," ++ toString r ++ "\r\n") ∧
    (∀ room s, PyRako.get_rooms room s = PyRako.query "ROOM" PyRako.to_room room s) ∧
    (∀ room s, PyRako.get_channels room s = PyRako.query "CHANNEL" PyRako.to_channel room s) ∧
    (∀ room s, PyRako.get_levels room s = PyRako.query "LEVEL" PyRako.to_level room s) ∧
    (∀ room s, PyRako.get_scenes room s = PyRako.query "SCENE" PyRako.to_scene room s) ∧
    (∀ room s, PyRako.get_colours room s = PyRako.query "COLOR" PyRako.to_colour room s) ∧
    (∀ room s, PyRako.get_colours_levels room s =
      PyRako.query "COLOR_LEVEL" PyRako.to_colour_level room s) ∧
    (∀ qn (func : List String → Option α) room s,
      (PyRako.query qn func room s).1.trace =
        (PyRako.reconnect s).trace ++ [PyRako.Action.wrote (PyRako.queryRequest qn room)]) ∧
    (∀ qn (func : List String → Option α) room s,
      (PyRako.query qn func room s).2 =
        (PyRako.queryLoop func (PyRako.reconnect s).input).map Prod.fst) ∧
    (∀ (func : List String → Option α) (lines : List String) (term : String)
        (rest : List String),
      (∀ l ∈ lines, (l.splitComma).headD "" ≠ "QUERY_COMPLETE") →
      (term.splitComma).headD "" = "QUERY_COMPLETE" →
      PyRako.queryLoop func (lines ++ term :: rest) =
        ((lines.filter (fun l => (l.splitComma).headD "" != "QUERY_HEADER")).mapM
            (fun l => func l.splitComma)).map (fun rows => (rows, rest))) := by
  refine ⟨fun q => rfl, fun q r => rfl, fun room s => rfl, fun room s => rfl,
    fun room s => rfl, fun room s => rfl, fun room s => rfl, fun room s => rfl,
    ?_, ?_, ?_⟩
  · intro qn func room s
    unfold PyRako.query
    dsimp only
    split <;> simp [PyRako.write]
  · intro qn func room s
    unfold PyRako.query
    dsimp only
    split
    next heq =>
      have h2 : PyRako.queryLoop func (PyRako.reconnect s).input = none := heq
      rw [h2]
      rfl
    next rows rem heq =>
      have h2 : PyRako.queryLoop func (PyRako.reconnect s).input = some (rows, rem) := heq
      rw [h2]
      rfl
  · intro func lines term rest hlines hterm
    induction lines with
    | nil =>
      have hne : (term.splitComma).headD "" ≠ "QUERY_HEADER" := by
        rw [hterm]; decide
      rw [List.nil_append, PyRako.queryLoop, if_neg hne, if_pos hterm]
      rfl
    | cons l ls ih =>
      have hl : (l.splitComma).headD "" ≠ "QUERY_COMPLETE" :=
        hlines l (List.mem_cons_self _ _)
      have ihl := ih (fun x hx => hlines x (List.mem_cons_of_mem _ hx))
      by_cases hh : (l.splitComma).headD "" = "QUERY_HEADER"
      · rw [List.cons_append, PyRako.queryLoop, if_pos hh, ihl,
          List.filter_cons_of_neg (by simpa using hh)]
      · rw [List.cons_append, PyRako.queryLoop, if_neg hh, if_neg hl, ihl,
          List.filter_cons_of_pos (by simpa using hh), List.mapM_cons]
        cases hf : func l.splitComma <;>
          cases hm : (ls.filter (fun l => (l.splitComma).headD "" != "QUERY_HEADER")).mapM
            (fun l => func l.splitComma) <;>
          rfl

/-- C1 witness: a concrete `ROOM` query stream with one header line, two
rows and a terminator followed by unread data. -/
theorem c1_witness :
    PyRako.queryLoop PyRako.to_room
        ["QUERY_HEADER,Id,Title,Type,Mode",
         "ROOM,1,Kitchen,Switch,LIGHT\r\n",
         "ROOM,2,Hall,Dimmer,LIGHT\r\n",
         "QUERY_COMPLETE", "unread"] =
      some ([{ room_id := "1", room_tile := "Kitchen", room_type := "Switch",
               room_mode := "LIGHT" },
             { room_id := "2", room_tile := "Hall", room_type := "Dimmer",
               room_mode := "LIGHT" }], ["unread"]) := by
  have h := (c1_query_protocol (α := PyRako.Room)).2.2.2.2.2.2.2.2.2.2
    PyRako.to_room
    ["QUERY_HEADER,Id,Title,Type,Mode",
     "ROOM,1,Kitchen,Switch,LIGHT\r\n",
     "ROOM,2,Hall,Dimmer,LIGHT\r\n"]
    "QUERY_COMPLETE" ["unread"] (by decide) (by decide)
  exact h.trans (by rfl)
